import Mathlib

/-!
Verification of the `data-channels` WebRTC example
(src/examples/data-channels/data-channels.rs).

The program is a straight-line async `main` plus three library callbacks
(peer-connection state change, data-channel creation with per-channel
`on_open` / `on_message` handlers).  We embed it shallowly:

* every external library call whose outcome the program branches on is an
  input, collected in the `Env` structure (an oracle for the run);
* `main` is a pure function from `Env` to the list of observable events of
  the main task (prints, library invocations, the final select and close)
  together with the run's outcome (`ok`, propagated error, panic, or
  `process::exit`);
* each callback is a pure function from its arguments (and, for the send
  loop, the stream of library responses it consumes) to its event list.

Machine integers that matter here (byte values, code points) are modelled
as `Nat` with explicit bounds.  Fallible operations are `Except` / `Option`
valued.  Functions of the repository that are referenced but whose source
is not under src/ (`signal::encode`) and external library helpers the
claims talk about (`math_rand_alpha`, UTF-8 decoding of `String::from_utf8`,
serde JSON serialization, the chrono time format) are modelled from the
spec; each such definition says so in its doc comment.
-/

/-- Single-quote character as a string (the examples print labels and
messages wrapped in single quotes). -/
def sQuote : String := String.singleton (Char.ofNat 39)

/-! ## Data model (spec section 3, mirroring the Rust types used) -/

/-- SDP type tag of a session description. -/
inductive RTCSdpType
  | offer
  | answer
  | pranswer
  | rollback
deriving DecidableEq

/-- Session description: tagged record of type and SDP text. -/
structure RTCSessionDescription where
  sdp_type : RTCSdpType
  sdp : String
deriving DecidableEq

/-- ICE server entry of the connection configuration. -/
structure RTCIceServer where
  urls : List String
deriving DecidableEq

/-- Connection configuration: list of ICE servers. -/
structure RTCConfiguration where
  ice_servers : List RTCIceServer
deriving DecidableEq

/-- Candidate-init record passed to `add_ice_candidate`. -/
structure RTCIceCandidateInit where
  candidate : String
  sdp_mid : String
  sdp_mline_index : Nat
  username_fragment : Option String
deriving DecidableEq

/-- Peer-connection states. -/
inductive RTCPeerConnectionState
  | New
  | Connecting
  | Connected
  | Disconnected
  | Failed
  | Closed
deriving DecidableEq

/-- Display rendering of a peer-connection state, as interpolated by
`println!("Peer Connection State has changed: {}", s)` (library `Display`
implementation: lowercase state names). -/
def stateStr : RTCPeerConnectionState → String
  | .New => "new"
  | .Connecting => "connecting"
  | .Connected => "connected"
  | .Disconnected => "disconnected"
  | .Failed => "failed"
  | .Closed => "closed"

/-! ## UTF-8 (models Rust `String::from_utf8` validation and encoding) -/

/-- UTF-8 encoding of a single Unicode scalar value as a list of byte
values.  Standard UTF-8: 1 to 4 bytes depending on the range. -/
def encodeCodePoint (n : Nat) : List Nat :=
  if n < 0x80 then [n]
  else if n < 0x800 then [0xC0 + n / 64, 0x80 + n % 64]
  else if n < 0x10000 then [0xE0 + n / 4096, 0x80 + (n / 64) % 64, 0x80 + n % 64]
  else [0xF0 + n / 262144, 0x80 + (n / 4096) % 64, 0x80 + (n / 64) % 64, 0x80 + n % 64]

/-- UTF-8 encoding of a string: encode every character of its data. -/
def utf8Encode (s : String) : List Nat :=
  s.data.flatMap (fun c => encodeCodePoint c.toNat)

/-- Worker of the strict UTF-8 decoder, one byte at a time.  `need` is the
number of continuation bytes still expected, `acc` the partial code point,
`minv` the least value the sequence may encode (overlong rejection).  At a
boundary a byte is classified as ASCII, 2-, 3- or 4-byte lead or invalid;
a completed sequence is accepted only when it is not overlong, not a
surrogate and at most 0x10FFFF. -/
def utf8DecodeGo (need acc minv : Nat) : List Nat → Option (List Nat)
  | [] => if need = 0 then some [] else none
  | b :: rest =>
    if need = 0 then
      if b < 0x80 then (utf8DecodeGo 0 0 0 rest).map (fun cps => b :: cps)
      else if b < 0xC2 then none
      else if b < 0xE0 then utf8DecodeGo 1 (b - 0xC0) 0x80 rest
      else if b < 0xF0 then utf8DecodeGo 2 (b - 0xE0) 0x800 rest
      else if b < 0xF5 then utf8DecodeGo 3 (b - 0xF0) 0x10000 rest
      else none
    else
      if 0x80 ≤ b ∧ b < 0xC0 then
        if need = 1 then
          if minv ≤ acc * 64 + (b - 0x80)
              ∧ (acc * 64 + (b - 0x80) < 0xD800 ∨ 0xE000 ≤ acc * 64 + (b - 0x80))
              ∧ acc * 64 + (b - 0x80) < 0x110000 then
            (utf8DecodeGo 0 0 0 rest).map (fun cps => (acc * 64 + (b - 0x80)) :: cps)
          else none
        else utf8DecodeGo (need - 1) (acc * 64 + (b - 0x80)) minv rest
      else none

/-- Strict UTF-8 decoding of a byte list into code points, modelling the
validation performed by Rust `String::from_utf8`: rejects stray
continuation bytes, truncated sequences, overlong encodings, surrogate
code points and values above 0x10FFFF. -/
def utf8Decode (bytes : List Nat) : Option (List Nat) :=
  utf8DecodeGo 0 0 0 bytes

/-! ## Base64 and the signaling codec -/

/-- Standard base64 alphabet. -/
def b64Alphabet : List Char :=
  "ABCDEFGHIJKLMNOPQRSTUVWXYZabcdefghijklmnopqrstuvwxyz0123456789+/".data

/-- Standard base64 encoding of a byte list, with `=` padding.
Modelled from the spec: `signal::encode` applies standard base64 to the
UTF-8 bytes of its input (the `signal` module of the examples crate is not
under src/). -/
def base64Encode : List Nat → List Char
  | [] => []
  | [a] =>
    [b64Alphabet.getD (a / 4) (Char.ofNat 65),
     b64Alphabet.getD (a % 4 * 16) (Char.ofNat 65),
     Char.ofNat 61, Char.ofNat 61]
  | [a, b] =>
    [b64Alphabet.getD (a / 4) (Char.ofNat 65),
     b64Alphabet.getD (a % 4 * 16 + b / 16) (Char.ofNat 65),
     b64Alphabet.getD (b % 16 * 4) (Char.ofNat 65),
     Char.ofNat 61]
  | a :: b :: c :: rest =>
    b64Alphabet.getD (a / 4) (Char.ofNat 65) ::
    b64Alphabet.getD (a % 4 * 16 + b / 16) (Char.ofNat 65) ::
    b64Alphabet.getD (b % 16 * 4 + c / 64) (Char.ofNat 65) ::
    b64Alphabet.getD (c % 64) (Char.ofNat 65) ::
    base64Encode rest

namespace signal

/-- Modelled from the spec: `encode(json_str)` is the standard base64
encoding of the UTF-8 bytes of its argument (spec section 4.3; the
`signal` module is part of the examples crate but not under src/). -/
def encode (s : String) : String :=
  String.mk (base64Encode (utf8Encode s))

end signal

/-! ## JSON serialization of a session description -/

/-- JSON escaping of one character, modelling serde_json string escaping:
quote and backslash get a backslash escape, control characters below 0x20
get their short escape or a \u00XX escape, everything else is verbatim. -/
def jsonEscapeChar (c : Char) : String :=
  if c = Char.ofNat 34 then String.mk [Char.ofNat 92, Char.ofNat 34]
  else if c = Char.ofNat 92 then String.mk [Char.ofNat 92, Char.ofNat 92]
  else if c = Char.ofNat 8 then "\\b"
  else if c = Char.ofNat 9 then "\\t"
  else if c = Char.ofNat 10 then "\\n"
  else if c = Char.ofNat 12 then "\\f"
  else if c = Char.ofNat 13 then "\\r"
  else if c.toNat < 0x20 then
    "\\u00" ++ String.mk ["0123456789abcdef".data.getD (c.toNat / 16) (Char.ofNat 48),
                          "0123456789abcdef".data.getD (c.toNat % 16) (Char.ofNat 48)]
  else String.singleton c

/-- JSON escaping of a whole string. -/
def jsonEscape (s : String) : String :=
  String.join (s.data.map jsonEscapeChar)

/-- Name of an SDP type in the JSON serialization (serde rename). -/
def sdpTypeStr : RTCSdpType → String
  | .offer => "offer"
  | .answer => "answer"
  | .pranswer => "pranswer"
  | .rollback => "rollback"

/-- Modelled from the spec: serde_json serialization of a session
description, the tagged record `\x7b type, sdp \x7d` of spec section 3, in
declaration order with JSON string escaping. -/
def jsonSerialize (d : RTCSessionDescription) : String :=
  "\x7b\"type\":\"" ++ sdpTypeStr d.sdp_type ++ "\",\"sdp\":\"" ++ jsonEscape d.sdp ++ "\"\x7d"

/-! ## Logger model (the debug branch of main, lines 48 to 63) -/

/-- Log levels of the `log` crate. -/
inductive LogLevel
  | Error
  | Warn
  | Info
  | Debug
  | Trace
deriving DecidableEq

/-- Display rendering of a log level (uppercase, as the `log` crate
renders `record.level()`). -/
def levelStr : LogLevel → String
  | .Error => "ERROR"
  | .Warn => "WARN"
  | .Info => "INFO"
  | .Debug => "DEBUG"
  | .Trace => "TRACE"

/-- Level filters of the `log` crate (`LevelFilter`). -/
inductive LogLevelFilter
  | Off
  | ErrorF
  | WarnF
  | InfoF
  | DebugF
  | TraceF
deriving DecidableEq

/-- A log record as seen by the formatter closure: optional file and line,
level, and the formatted message arguments. -/
structure LogRecord where
  file : Option String
  line : Option Nat
  level : LogLevel
  args : String

/-- Local wall-clock time with microsecond precision, the data consumed by
the `chrono` format string `%H:%M:%S.%6f`. -/
structure LocalTime where
  hour : Nat
  minute : Nat
  second : Nat
  micro : Nat

/-- Decimal rendering of `n` left-padded with zeros to width `w`. -/
def zeroPad (w n : Nat) : String :=
  String.mk (List.replicate (w - (Nat.repr n).length) (Char.ofNat 48)) ++ Nat.repr n

/-- Rendering of the chrono format string `%H:%M:%S.%6f` on a local time:
two-digit hour, minute and second and six fractional digits.  Modelled
from the spec (chrono is an external crate). -/
def chronoHMS6f (t : LocalTime) : String :=
  zeroPad 2 t.hour ++ ":" ++ zeroPad 2 t.minute ++ ":" ++ zeroPad 2 t.second
    ++ "." ++ zeroPad 6 (t.micro % 1000000)

/-- The formatter closure installed by the debug branch (source lines
50 to 60): `writeln!(buf, "\x7b\x7d:\x7b\x7d [\x7b\x7d] \x7b\x7d - \x7b\x7d", file.unwrap_or("unknown"),
line.unwrap_or(0), level, chrono local time, args)`. -/
def loggerFormat (r : LogRecord) (now : LocalTime) : String :=
  r.file.getD "unknown" ++ ":" ++ Nat.repr (r.line.getD 0) ++ " [" ++ levelStr r.level
    ++ "] " ++ chronoHMS6f now ++ " - " ++ r.args

/-- The filter installed by the debug branch (source line 61):
`.filter(None, log::LevelFilter::Trace)` - no module restriction, trace
level and above. -/
def loggerFilter : Option String × LogLevelFilter := (none, LogLevelFilter.TraceF)

/-- Formatter shape required by the spec, written from the spec's words
(section 4.2): `"\x7bfile\x7d:\x7bline\x7d [\x7blevel\x7d] \x7bHH:MM:SS.uuuuuu\x7d - \x7bmessage\x7d"`
using local wall-clock time with six fractional-second digits. -/
def specLoggerFormat (file : String) (line : Nat) (level : LogLevel)
    (now : LocalTime) (message : String) : String :=
  file ++ ":" ++ Nat.repr line ++ " [" ++ levelStr level ++ "] "
    ++ zeroPad 2 now.hour ++ ":" ++ zeroPad 2 now.minute ++ ":" ++ zeroPad 2 now.second
    ++ "." ++ zeroPad 6 (now.micro % 1000000) ++ " - " ++ message

/-! ## Observable events and outcomes -/

/-- Observable events of the program: prints to stdout, the library calls
the spec's ordering claims speak about, sleeps and channel sends of the
send loop, the final select and the close. -/
inductive Event
  | printLongHelp
  | exitProcess (code : Nat)
  | installLogger
  | registerDefaultCodecs
  | registerDefaultInterceptors
  | buildAPI
  | newPeerConnection (config : RTCConfiguration)
  | installStateChangeHandler
  | installDataChannelHandler
  | setRemoteDescription (desc : RTCSessionDescription)
  | createAnswer
  | setLocalDescription (desc : RTCSessionDescription)
  | addIceCandidate (c : RTCIceCandidateInit)
  | readLocalDescription
  | print (line : String)
  | sleepSecs (n : Nat)
  | sendText (msg : String)
  | awaitSelect (doneFired : Bool)
  | closePC
deriving DecidableEq

/-- Outcome of a run of `main`: normal return, propagated error (`?`),
panic (`unwrap` failure), or `process::exit`. -/
inductive Outcome
  | ok
  | err (msg : String)
  | panicked
  | exited (code : Nat)
deriving DecidableEq

/-- Result of running a callback body: its events, or a panic inside the
callback. -/
inductive HandlerResult
  | ok (events : List Event)
  | panicked
deriving DecidableEq

/-! ## The callbacks -/

/-- The peer-connection state-change handler (source lines 105 to 117).
Returns its printed lines and whether it sent on the termination channel;
the `done_tx.try_send` in the Failed branch is commented out in the source
(line 113), so the second component is always `false`. -/
def on_peer_connection_state_change (s : RTCPeerConnectionState) : List Event × Bool :=
  (Event.print ("Peer Connection State has changed: " ++ stateStr s) ::
    (if s = RTCPeerConnectionState.Failed then
      [Event.print "Peer Connection has gone to failed exiting"]
    else []),
   false)

/-- Modelled from the spec: `webrtc::peer_connection::math_rand_alpha n`
draws `n` characters from the alphabetic alphabet (the library function is
external to src/; the spec says it produces strings of exactly `n`
alphabetic characters).  Randomness is an oracle `seed` giving the draw of
each position. -/
def alphaRunes : List Char :=
  "abcdefghijklmnopqrstuvwxyzABCDEFGHIJKLMNOPQRSTUVWXYZ".data

/-- Random alphabetic string of length `n` under the draw oracle `seed`. -/
def math_rand_alpha (n : Nat) (seed : Nat → Nat) : String :=
  String.mk ((List.range n).map (fun i => alphaRunes.getD (seed i % 52) (Char.ofNat 97)))

/-- One iteration's worth of library input to the send loop: the random
draws of `math_rand_alpha` and the result of `send_text`. -/
structure SendIter where
  seed : Nat → Nat
  sendRes : Except String Nat

/-- The send loop of `on_open` (source lines 136 to 148): `result` starts
`Ok(0)`; while it is ok, sleep five seconds, generate a random message,
print it and send it, storing the send result.  `iters` is the finite
prefix of library responses observed; an exhausted list means the library
kept succeeding for the observed window. -/
def sendLoopGo (result : Except String Nat) : List SendIter → List Event
  | [] => []
  | it :: rest =>
    if result.isOk then
      Event.sleepSecs 5 ::
      Event.print ("Sending " ++ sQuote ++ math_rand_alpha 15 it.seed ++ sQuote) ::
      Event.sendText (math_rand_alpha 15 it.seed) ::
      sendLoopGo it.sendRes rest
    else []

/-- The send loop started from `Ok(0)` as in the source (line 136). -/
def sendLoop (iters : List SendIter) : List Event :=
  sendLoopGo (Except.ok 0) iters

/-- The `on_open` handler of a data channel (source lines 132 to 150):
prints the open notice and runs the send loop. -/
def on_open (d_label : String) (d_id : Nat) (iters : List SendIter) : List Event :=
  Event.print ("Data channel " ++ sQuote ++ d_label ++ sQuote ++ "-" ++ sQuote ++ Nat.repr d_id ++ sQuote
      ++ " open. Random messages will now be sent to any connected DataChannels every 5 seconds")
    :: sendLoop iters

/-- The `on_message` handler of a data channel (source lines 153 to 157):
`String::from_utf8(msg.data.to_vec()).unwrap()` then print.  A non-UTF-8
payload makes the `unwrap` panic. -/
def on_message (d_label : String) (data : List Nat) : HandlerResult :=
  match utf8Decode data with
  | some cps =>
    HandlerResult.ok
      [Event.print ("Message from DataChannel " ++ sQuote ++ d_label ++ sQuote ++ ": " ++ sQuote
        ++ String.mk (cps.map Char.ofNat) ++ sQuote)]
  | none => HandlerResult.panicked

/-- The `on_data_channel` handler (source lines 122 to 159): prints the
new-channel notice; the per-channel handlers it installs are modelled by
`on_open` and `on_message`. -/
def on_data_channel (d_label : String) (d_id : Nat) : List Event :=
  [Event.print ("New DataChannel " ++ d_label ++ " " ++ Nat.repr d_id)]

/-! ## Embedded constants of main -/

/-- The embedded offer SDP (source line 165). -/
def offerSdp : String :=
  "v=0\r\no=- 5340727823215260889 1636897623 IN IP4 0.0.0.0\r\ns=-\r\nt=0 0\r\na=fingerprint:sha-256 B7:D9:04:8D:52:B2:F5:46:BA:9F:EB:AC:E0:62:65:D3:71:E1:2B:13:1B:ED:87:8D:E5:1D:60:8A:4A:27:4F:C5\r\na=group:BUNDLE 0\r\nm=application 9 UDP/DTLS/SCTP webrtc-datachannel\r\nc=IN IP4 0.0.0.0\r\na=setup:actpass\r\na=mid:0\r\na=sendrecv\r\na=sctp-port:5000\r\na=ice-ufrag:PCrxmuHcaZphIFEj\r\na=ice-pwd:JNlJxHWYGduaIDcAZpkrghAcDDuzrxqD\r\n"

/-- The embedded offer (source lines 163 to 167): `serde_json::from_value`
of the literal `\x7b "type": "offer", "sdp": offerSdp \x7d`; parsing a
well-formed constant literal succeeds, yielding this description. -/
def offer : RTCSessionDescription :=
  { sdp_type := RTCSdpType.offer, sdp := offerSdp }

/-- The single STUN server URL (source line 91). -/
def stunUrl : String := "stun:stun.l.google.com:19302"

/-- The connection configuration (source lines 89 to 95). -/
def config : RTCConfiguration :=
  { ice_servers := [{ urls := [stunUrl] }] }

/-- The embedded remote ICE candidate line (source line 178). -/
def candidateStr : String :=
  "candidate:422338508 1 udp 2130706431 1.2.3.4 61411 typ host"

/-- The candidate-init record passed to `add_ice_candidate` (source lines
180 to 185). -/
def candidateInit : RTCIceCandidateInit :=
  { candidate := candidateStr, sdp_mid := "", sdp_mline_index := 0, username_fragment := none }

/-! ## Spec-side copies of the constants (spec section 6), for claim C8 -/

/-- Offer SDP as written verbatim in the spec, section 6. -/
def spec_offer_sdp : String :=
  "v=0\r\no=- 5340727823215260889 1636897623 IN IP4 0.0.0.0\r\ns=-\r\nt=0 0\r\na=fingerprint:sha-256 B7:D9:04:8D:52:B2:F5:46:BA:9F:EB:AC:E0:62:65:D3:71:E1:2B:13:1B:ED:87:8D:E5:1D:60:8A:4A:27:4F:C5\r\na=group:BUNDLE 0\r\nm=application 9 UDP/DTLS/SCTP webrtc-datachannel\r\nc=IN IP4 0.0.0.0\r\na=setup:actpass\r\na=mid:0\r\na=sendrecv\r\na=sctp-port:5000\r\na=ice-ufrag:PCrxmuHcaZphIFEj\r\na=ice-pwd:JNlJxHWYGduaIDcAZpkrghAcDDuzrxqD\r\n"

/-- Remote ICE candidate line as written in the spec, section 6. -/
def spec_candidate : String :=
  "candidate:422338508 1 udp 2130706431 1.2.3.4 61411 typ host"

/-- STUN URL as written in the spec, section 6. -/
def spec_stun_url : String := "stun:stun.l.google.com:19302"

/-! ## The main program -/

/-- Library-call outcomes and inputs of one run: the two CLI flags, the
result of every fallible library call `main` branches on, the local
description read back after negotiation, and the sequence of states the
state-change callback is invoked with during the run. -/
structure Env where
  fullhelp : Bool
  debug : Bool
  register_default_codecs : Except String Unit
  register_default_interceptors : Except String Unit
  new_peer_connection : Except String Unit
  set_remote_description : Except String Unit
  create_answer : Except String RTCSessionDescription
  set_local_description : Except String Unit
  add_ice_candidate : Except String Unit
  local_description : Option RTCSessionDescription
  stateChanges : List RTCPeerConnectionState
  close : Except String Unit

/-- Whether anything was ever sent on the termination channel `done_tx`
during the run: some invocation of the state-change handler sent.  (The
handlers are the only side that holds the sender.) -/
def doneFired (env : Env) : Bool :=
  env.stateChanges.any (fun s => (on_peer_connection_state_change s).2)

/-- The `main` function (source lines 21 to 209), as a function from the
run's library outcomes to the main task's event trace and outcome.
`?` on an error produces `Outcome.err`; the `unwrap` on
`add_ice_candidate` produces `Outcome.panicked`; the final select takes
the done branch only if the termination channel was sent on. -/
def mainFn (env : Env) : List Event × Outcome :=
  if env.fullhelp then
    ([Event.printLongHelp, Event.exitProcess 0], Outcome.exited 0)
  else
    let pre0 := (if env.debug then [Event.installLogger] else [])
      ++ [Event.registerDefaultCodecs]
    match env.register_default_codecs with
    | Except.error e => (pre0, Outcome.err e)
    | Except.ok _ =>
      let pre1 := pre0 ++ [Event.registerDefaultInterceptors]
      match env.register_default_interceptors with
      | Except.error e => (pre1, Outcome.err e)
      | Except.ok _ =>
        let pre2 := pre1 ++ [Event.buildAPI, Event.newPeerConnection config]
        match env.new_peer_connection with
        | Except.error e => (pre2, Outcome.err e)
        | Except.ok _ =>
          let pre3 := pre2 ++ [Event.installStateChangeHandler,
            Event.installDataChannelHandler, Event.setRemoteDescription offer]
          match env.set_remote_description with
          | Except.error e => (pre3, Outcome.err e)
          | Except.ok _ =>
            let pre4 := pre3 ++ [Event.createAnswer]
            match env.create_answer with
            | Except.error e => (pre4, Outcome.err e)
            | Except.ok answer =>
              let pre5 := pre4 ++ [Event.setLocalDescription answer]
              match env.set_local_description with
              | Except.error e => (pre5, Outcome.err e)
              | Except.ok _ =>
                let pre6 := pre5 ++ [Event.addIceCandidate candidateInit]
                match env.add_ice_candidate with
                | Except.error _ => (pre6, Outcome.panicked)
                | Except.ok _ =>
                  let pre7 := pre6 ++ [Event.readLocalDescription] ++
                    (match env.local_description with
                     | some d => [Event.print (signal.encode (jsonSerialize d))]
                     | none => [Event.print "generate local_description failed!"]) ++
                    [Event.print "Press ctrl-c to stop",
                     Event.awaitSelect (doneFired env),
                     Event.print (if doneFired env then "received done signal!" else ""),
                     Event.closePC]
                  (pre7,
                   match env.close with
                   | Except.error e => Outcome.err e
                   | Except.ok _ => Outcome.ok)

/-! ## Helper predicates and checkers on event traces -/

/-- Event is a `set_remote_description` call. -/
def isSetRemoteEv : Event → Bool
  | Event.setRemoteDescription _ => true
  | _ => false

/-- Event is a `create_answer` call. -/
def isCreateAnswerEv : Event → Bool
  | Event.createAnswer => true
  | _ => false

/-- Event is a `set_local_description` call. -/
def isSetLocalEv : Event → Bool
  | Event.setLocalDescription _ => true
  | _ => false

/-- Event is an `add_ice_candidate` call. -/
def isAddIceEv : Event → Bool
  | Event.addIceCandidate _ => true
  | _ => false

/-- Event is a `local_description()` read. -/
def isReadLocalEv : Event → Bool
  | Event.readLocalDescription => true
  | _ => false

/-- Event is a channel send. -/
def isSendTextEv : Event → Bool
  | Event.sendText _ => true
  | _ => false

/-- Event is a print. -/
def isPrintEv : Event → Bool
  | Event.print _ => true
  | _ => false

/-- Worker of `allAfter`: `seen` records whether a `p`-event has already
occurred; every `q`-event must be strictly preceded by some `p`-event. -/
def allAfterGo (p q : Event → Bool) (seen : Bool) : List Event → Bool
  | [] => true
  | e :: rest => (!(q e) || seen) && allAfterGo p q (seen || p e) rest

/-- Checks that every `q`-event of the trace has a `p`-event strictly
before it. -/
def allAfter (p q : Event → Bool) (t : List Event) : Bool :=
  allAfterGo p q false t

/-- Checks that every `set_remote_description` in the trace is on the
embedded offer. -/
def remoteIsOffer (t : List Event) : Bool :=
  t.all (fun e =>
    match e with
    | Event.setRemoteDescription d => decide (d = offer)
    | _ => true)

/-- Credit checker: each `sleepSecs` event earns one credit and each event
satisfying `spend` consumes one; the check fails when a `spend` event
arrives with no credit.  Used to state that the five-second timer elapses
before each send (and before each Sending print), including the first. -/
def creditCheck (spend : Event → Bool) : Nat → List Event → Bool
  | _, [] => true
  | credit, e :: rest =>
    match e with
    | Event.sleepSecs _ => creditCheck spend (credit + 1) rest
    | _ =>
      if spend e then decide (0 < credit) && creditCheck spend (credit - 1) rest
      else creditCheck spend credit rest

/-! ## The spec-side description of the send loop (claim C2) -/

/-- Iterations up to and including the first failed send: the loop body
runs again only while the previous send succeeded. -/
def takeToFirstErr : List SendIter → List SendIter
  | [] => []
  | it :: rest => it :: (if it.sendRes.isOk then takeToFirstErr rest else [])

/-- Events of one loop iteration, per the spec: wait five seconds,
generate the random 15-character message, print it, send it. -/
def iterEvents (it : SendIter) : List Event :=
  [Event.sleepSecs 5,
   Event.print ("Sending " ++ sQuote ++ math_rand_alpha 15 it.seed ++ sQuote),
   Event.sendText (math_rand_alpha 15 it.seed)]

/-- Character may appear in base64 output: alphabet character or padding. -/
def isB64Char (c : Char) : Bool := c ∈ b64Alphabet || c = Char.ofNat 61

/-- Witness environment: a run where everything up to
`set_local_description` succeeds and `add_ice_candidate` fails. -/
def env_C5 : Env :=
  { fullhelp := false, debug := false,
    register_default_codecs := Except.ok (), register_default_interceptors := Except.ok (),
    new_peer_connection := Except.ok (), set_remote_description := Except.ok (),
    create_answer := Except.ok { sdp_type := RTCSdpType.answer, sdp := "a" },
    set_local_description := Except.ok (), add_ice_candidate := Except.error "bad candidate",
    local_description := none, stateChanges := [], close := Except.ok () }

/-- Counterexample environment for claim C7 as stated: both `--fullhelp`
and `--debug` given; the program prints the long help and exits before
installing any logger. -/
def env_C7x : Env :=
  { fullhelp := true, debug := true,
    register_default_codecs := Except.ok (), register_default_interceptors := Except.ok (),
    new_peer_connection := Except.ok (), set_remote_description := Except.ok (),
    create_answer := Except.ok { sdp_type := RTCSdpType.answer, sdp := "a" },
    set_local_description := Except.ok (), add_ice_candidate := Except.ok (),
    local_description := none, stateChanges := [], close := Except.ok () }

/-- Witness environment for the amended claim C7: `--debug` without
`--fullhelp`. -/
def env_C7 : Env :=
  { fullhelp := false, debug := true,
    register_default_codecs := Except.ok (), register_default_interceptors := Except.ok (),
    new_peer_connection := Except.ok (), set_remote_description := Except.ok (),
    create_answer := Except.ok { sdp_type := RTCSdpType.answer, sdp := "a" },
    set_local_description := Except.ok (), add_ice_candidate := Except.ok (),
    local_description := none, stateChanges := [], close := Except.ok () }

/-- Witness environment for claim C3: a fully successful negotiation with
a present local description. -/
def env_C3 : Env :=
  { fullhelp := false, debug := false,
    register_default_codecs := Except.ok (), register_default_interceptors := Except.ok (),
    new_peer_connection := Except.ok (), set_remote_description := Except.ok (),
    create_answer := Except.ok { sdp_type := RTCSdpType.answer, sdp := "a" },
    set_local_description := Except.ok (), add_ice_candidate := Except.ok (),
    local_description := some { sdp_type := RTCSdpType.answer, sdp := "a" },
    stateChanges := [], close := Except.ok () }

/-- Witness environment for claim C9: a fully successful run. -/
def env_C9 : Env :=
  { fullhelp := false, debug := false,
    register_default_codecs := Except.ok (), register_default_interceptors := Except.ok (),
    new_peer_connection := Except.ok (), set_remote_description := Except.ok (),
    create_answer := Except.ok { sdp_type := RTCSdpType.answer, sdp := "a" },
    set_local_description := Except.ok (), add_ice_candidate := Except.ok (),
    local_description := some { sdp_type := RTCSdpType.answer, sdp := "a" },
    stateChanges := [RTCPeerConnectionState.New, RTCPeerConnectionState.Failed],
    close := Except.ok () }

theorem sendLoopGo_error (e : String) (iters : List SendIter) :
    sendLoopGo (Except.error e) iters = [] := by
  cases iters <;> rfl

theorem sendLoopGo_ok_eq (iters : List SendIter) :
    ∀ n : Nat, sendLoopGo (Except.ok n) iters = (takeToFirstErr iters).flatMap iterEvents := by
  induction iters with
  | nil => intro n; rfl
  | cons it rest ih =>
    intro n
    cases hres : it.sendRes with
    | ok m =>
      simp [sendLoopGo, takeToFirstErr, iterEvents, hres, Except.isOk, Except.toBool, ih m]
    | error e =>
      simp [sendLoopGo, takeToFirstErr, iterEvents, hres, Except.isOk, Except.toBool,
        sendLoopGo_error]

theorem mem_sendLoopGo_sendText (iters : List SendIter) :
    ∀ (res : Except String Nat) (msg : String),
      Event.sendText msg ∈ sendLoopGo res iters →
      ∃ it ∈ iters, msg = math_rand_alpha 15 it.seed := by
  induction iters with
  | nil => intro res msg h; simp [sendLoopGo] at h
  | cons it rest ih =>
    intro res msg h
    by_cases hres : res.isOk
    · simp only [sendLoopGo, hres, if_pos] at h
      rcases List.mem_cons.mp h with h1 | h1
      · exact absurd h1 (by simp)
      rcases List.mem_cons.mp h1 with h2 | h2
      · exact absurd h2 (by simp)
      rcases List.mem_cons.mp h2 with h3 | h3
      · exact ⟨it, List.mem_cons_self it rest, by injection h3⟩
      · obtain ⟨it2, hmem, hm⟩ := ih it.sendRes msg h3
        exact ⟨it2, List.mem_cons_of_mem _ hmem, hm⟩
    · simp [sendLoopGo, hres] at h

theorem math_rand_alpha_length (n : Nat) (seed : Nat → Nat) :
    (math_rand_alpha n seed).length = n := by
  simp [math_rand_alpha]

theorem alphaRunes_getD_isAlpha (k : Nat) :
    (alphaRunes.getD k (Char.ofNat 97)).isAlpha = true := by
  rcases Nat.lt_or_ge k alphaRunes.length with h | h
  · have hmem : alphaRunes.getD k (Char.ofNat 97) ∈ alphaRunes := by
      rw [List.getD_eq_getElem _ _ h]
      exact List.getElem_mem h
    have hall : alphaRunes.all Char.isAlpha = true := by decide
    exact List.all_eq_true.mp hall _ hmem
  · rw [List.getD_eq_default _ _ h]
    decide

theorem math_rand_alpha_isAlpha (n : Nat) (seed : Nat → Nat) :
    (math_rand_alpha n seed).data.all Char.isAlpha = true := by
  simp only [math_rand_alpha]
  rw [List.all_eq_true]
  intro c hc
  rw [List.mem_map] at hc
  obtain ⟨i, _, rfl⟩ := hc
  exact alphaRunes_getD_isAlpha _

/-- Claim C2: after `on_open` fires, the spawned loop repeats sleep five
seconds, generate a 15-character random alphabetic string via
`math_rand_alpha 15`, print `Sending <msg>` and send it, until the first
failed send, then stops; the send error is swallowed (the trace is exactly
the open notice followed by the iterations up to the first failure, with
no further event), and every message sent has length 15 and is purely
alphabetic. -/
theorem claim_C2 (d_label : String) (d_id : Nat) (iters : List SendIter) :
    on_open d_label d_id iters =
      Event.print ("Data channel " ++ sQuote ++ d_label ++ sQuote ++ "-" ++ sQuote
          ++ Nat.repr d_id ++ sQuote
          ++ " open. Random messages will now be sent to any connected DataChannels every 5 seconds")
        :: (takeToFirstErr iters).flatMap iterEvents
    ∧ (∀ msg, Event.sendText msg ∈ on_open d_label d_id iters →
        ∃ it ∈ iters, msg = math_rand_alpha 15 it.seed
          ∧ msg.length = 15 ∧ msg.data.all Char.isAlpha = true) := by
  constructor
  · simp only [on_open, sendLoop, sendLoopGo_ok_eq]
  · intro msg hmem
    rcases List.mem_cons.mp hmem with h | h
    · exact absurd h (by simp)
    · obtain ⟨it, hit, hm⟩ := mem_sendLoopGo_sendText iters _ msg h
      subst hm
      exact ⟨it, hit, rfl, math_rand_alpha_length _ _, math_rand_alpha_isAlpha _ _⟩

/-- Claim C2 witness: a concrete two-iteration run (second send fails). -/
theorem claim_C2_witness :
    Event.sendText "aaaaaaaaaaaaaaa" ∈ on_open "data" 1 [⟨fun _ => 0, Except.ok 3⟩]
    ∧ ∃ it ∈ [(⟨fun _ => 0, Except.ok 3⟩ : SendIter)],
        "aaaaaaaaaaaaaaa" = math_rand_alpha 15 it.seed
        ∧ ("aaaaaaaaaaaaaaa" : String).length = 15
        ∧ ("aaaaaaaaaaaaaaa" : String).data.all Char.isAlpha = true := by
  have hmem : Event.sendText "aaaaaaaaaaaaaaa" ∈ on_open "data" 1 [⟨fun _ => 0, Except.ok 3⟩] := by
    decide
  exact ⟨hmem, (claim_C2 "data" 1 [⟨fun _ => 0, Except.ok 3⟩]).2 _ hmem⟩

theorem creditCheck_sendLoopGo_send (iters : List SendIter) :
    ∀ (res : Except String Nat) (c : Nat),
      creditCheck isSendTextEv c (sendLoopGo res iters) = true := by
  induction iters with
  | nil => intro res c; rfl
  | cons it rest ih =>
    intro res c
    by_cases hres : res.isOk
    · simp only [sendLoopGo, hres, if_pos]
      simp only [creditCheck, isSendTextEv]
      simpa using ih it.sendRes c
    · simp [sendLoopGo, hres, creditCheck]

theorem creditCheck_sendLoopGo_print (iters : List SendIter) :
    ∀ (res : Except String Nat) (c : Nat),
      creditCheck isPrintEv c (sendLoopGo res iters) = true := by
  induction iters with
  | nil => intro res c; rfl
  | cons it rest ih =>
    intro res c
    by_cases hres : res.isOk
    · simp only [sendLoopGo, hres, if_pos]
      simp only [creditCheck, isPrintEv]
      simpa using ih it.sendRes c
    · simp [sendLoopGo, hres, creditCheck]

/-- Claim C10: in the per-channel send loop, the five-second timer elapses
before each send (the credit checker consuming one prior sleep per send,
and one per Sending print, passes from zero credit), and nothing is sent
at the moment `on_open` fires: the loop trace is empty or begins with the
five-second sleep. -/
theorem claim_C10 (iters : List SendIter) :
    creditCheck isSendTextEv 0 (sendLoop iters) = true
    ∧ creditCheck isPrintEv 0 (sendLoop iters) = true
    ∧ (sendLoop iters = [] ∨ ∃ t, sendLoop iters = Event.sleepSecs 5 :: t) := by
  refine ⟨creditCheck_sendLoopGo_send iters _ 0, creditCheck_sendLoopGo_print iters _ 0, ?_⟩
  cases iters with
  | nil => exact Or.inl rfl
  | cons it rest => exact Or.inr ⟨_, rfl⟩

/-- Claim C6: on every peer-connection state change the handler prints the
state-change line; it prints the failed notice exactly when the state is
`Failed`; it never sends on the termination channel and never terminates
the process from within the handler. -/
theorem claim_C6 (s : RTCPeerConnectionState) :
    Event.print ("Peer Connection State has changed: " ++ stateStr s)
        ∈ (on_peer_connection_state_change s).1
    ∧ (Event.print "Peer Connection has gone to failed exiting"
          ∈ (on_peer_connection_state_change s).1
        ↔ s = RTCPeerConnectionState.Failed)
    ∧ (on_peer_connection_state_change s).2 = false
    ∧ ∀ c, Event.exitProcess c ∉ (on_peer_connection_state_change s).1 := by
  cases s <;> simp [on_peer_connection_state_change, stateStr]

/-- Claim C6 witness: the Failed state prints both lines, sends nothing
and exits nothing. -/
theorem claim_C6_witness :
    Event.print ("Peer Connection State has changed: "
        ++ stateStr RTCPeerConnectionState.Failed)
      ∈ (on_peer_connection_state_change RTCPeerConnectionState.Failed).1
    ∧ Event.exitProcess 0 ∉ (on_peer_connection_state_change RTCPeerConnectionState.Failed).1 :=
  ⟨(claim_C6 RTCPeerConnectionState.Failed).1,
   (claim_C6 RTCPeerConnectionState.Failed).2.2.2 0⟩

/-- Claim C8: the embedded literals of the program equal the spec's
constants character for character: the offer SDP of spec section 6, the
remote ICE candidate line with empty `sdp_mid` and `sdp_mline_index` 0,
and the single STUN server URL. -/
theorem claim_C8 :
    offerSdp = spec_offer_sdp
    ∧ candidateStr = spec_candidate
    ∧ candidateInit = { candidate := spec_candidate, sdp_mid := "",
                        sdp_mline_index := 0, username_fragment := none }
    ∧ stunUrl = spec_stun_url
    ∧ config = { ice_servers := [{ urls := [spec_stun_url] }] }
    ∧ offer = { sdp_type := RTCSdpType.offer, sdp := spec_offer_sdp } :=
  ⟨rfl, rfl, rfl, rfl, rfl, rfl⟩

/-! ## UTF-8 round trip (claim C4) -/

theorem utf8Decode_encodeCodePoint (n : Nat) (h : Nat.isValidChar n) (rest : List Nat) :
    utf8Decode (encodeCodePoint n ++ rest) = (utf8Decode rest).map (fun cps => n :: cps) := by
  have hv : n < 0xd800 ∨ (0xdfff < n ∧ n < 0x110000) := h
  by_cases h1 : n < 0x80
  · have he : encodeCodePoint n ++ rest = n :: rest := by simp [encodeCodePoint, h1]
    rw [utf8Decode, utf8Decode, he]
    rw [utf8DecodeGo.eq_def]
    simp only [List.cons.injEq]
    rw [if_pos trivial, if_pos h1]
  · by_cases h2 : n < 0x800
    · have he : encodeCodePoint n ++ rest = (0xC0 + n / 64) :: (0x80 + n % 64) :: rest := by
        simp [encodeCodePoint, h1, h2]
      rw [utf8Decode, utf8Decode, he]
      rw [utf8DecodeGo.eq_def]
      simp only [List.cons.injEq]
      rw [if_pos trivial, if_neg (by omega), if_neg (by omega), if_pos (by omega)]
      rw [utf8DecodeGo.eq_def]
      simp only [List.cons.injEq]
      rw [if_neg (by omega), if_pos (by omega), if_pos trivial, if_pos (by omega)]
      have hx : (0xC0 + n / 64 - 0xC0) * 64 + (0x80 + n % 64 - 0x80) = n := by omega
      simp only [hx]
    · by_cases h3 : n < 0x10000
      · have he : encodeCodePoint n ++ rest
            = (0xE0 + n / 4096) :: (0x80 + n / 64 % 64) :: (0x80 + n % 64) :: rest := by
          simp [encodeCodePoint, h1, h2, h3]
        rw [utf8Decode, utf8Decode, he]
        rw [utf8DecodeGo.eq_def]
        simp only [List.cons.injEq]
        rw [if_pos trivial, if_neg (by omega), if_neg (by omega), if_neg (by omega),
          if_pos (by omega)]
        rw [utf8DecodeGo.eq_def]
        simp only [List.cons.injEq]
        rw [if_neg (by omega), if_pos (by omega), if_neg (by omega)]
        rw [utf8DecodeGo.eq_def]
        simp only [List.cons.injEq]
        rw [if_neg (by omega), if_pos (by omega), if_pos trivial, if_pos (by omega)]
        have hx : ((0xE0 + n / 4096 - 0xE0) * 64 + (0x80 + n / 64 % 64 - 0x80)) * 64
            + (0x80 + n % 64 - 0x80) = n := by omega
        simp only [hx]
      · have he : encodeCodePoint n ++ rest
            = (0xF0 + n / 262144) :: (0x80 + n / 4096 % 64) :: (0x80 + n / 64 % 64)
              :: (0x80 + n % 64) :: rest := by
          simp [encodeCodePoint, h1, h2, h3]
        rw [utf8Decode, utf8Decode, he]
        rw [utf8DecodeGo.eq_def]
        simp only [List.cons.injEq]
        rw [if_pos trivial, if_neg (by omega), if_neg (by omega), if_neg (by omega),
          if_neg (by omega), if_pos (by omega)]
        rw [utf8DecodeGo.eq_def]
        simp only [List.cons.injEq]
        rw [if_neg (by omega), if_pos (by omega), if_neg (by omega)]
        rw [utf8DecodeGo.eq_def]
        simp only [List.cons.injEq]
        rw [if_neg (by omega), if_pos (by omega), if_neg (by omega)]
        rw [utf8DecodeGo.eq_def]
        simp only [List.cons.injEq]
        rw [if_neg (by omega), if_pos (by omega), if_pos trivial, if_pos (by omega)]
        have hx : (((0xF0 + n / 262144 - 0xF0) * 64 + (0x80 + n / 4096 % 64 - 0x80)) * 64
            + (0x80 + n / 64 % 64 - 0x80)) * 64 + (0x80 + n % 64 - 0x80) = n := by omega
        simp only [hx]

theorem utf8Decode_flatMap (l : List Char) :
    utf8Decode (l.flatMap (fun c => encodeCodePoint c.toNat)) = some (l.map Char.toNat) := by
  induction l with
  | nil => rfl
  | cons c t ih =>
    rw [List.flatMap_cons, utf8Decode_encodeCodePoint c.toNat c.valid, ih]
    rfl

theorem utf8Decode_utf8Encode (s : String) :
    utf8Decode (utf8Encode s) = some (s.data.map Char.toNat) :=
  utf8Decode_flatMap s.data

/-- Claim C4: the `on_message` handler decodes the received payload as
UTF-8 and prints `Message from DataChannel <label>: <text>`; a payload
that is not valid UTF-8 makes the handler panic (the decode error is
treated as unrecoverable, not caught or propagated). -/
theorem claim_C4 :
    (∀ (d_label : String) (s : String),
      on_message d_label (utf8Encode s) =
        HandlerResult.ok [Event.print ("Message from DataChannel " ++ sQuote ++ d_label
          ++ sQuote ++ ": " ++ sQuote ++ s ++ sQuote)])
    ∧ (∀ (d_label : String) (data : List Nat),
      utf8Decode data = none → on_message d_label data = HandlerResult.panicked) := by
  constructor
  · intro d_label s
    have hcomp : (Char.ofNat ∘ Char.toNat) = id := funext (fun c => Char.ofNat_toNat c)
    simp [on_message, utf8Decode_utf8Encode, hcomp]
  · intro d_label data hnone
    rw [on_message, hnone]

/-- Claim C4 witness: a valid UTF-8 payload is printed; the invalid
payload `[255]` panics. -/
theorem claim_C4_witness :
    on_message "chat" (utf8Encode "hi") =
      HandlerResult.ok [Event.print ("Message from DataChannel " ++ sQuote ++ "chat"
        ++ sQuote ++ ": " ++ sQuote ++ "hi" ++ sQuote)]
    ∧ on_message "chat" [255] = HandlerResult.panicked :=
  ⟨claim_C4.1 "chat" "hi", claim_C4.2 "chat" [255] (by decide)⟩

/-! ## Facts about base64 output and the termination channel -/

theorem b64Alphabet_getD_b64 (k : Nat) :
    isB64Char (b64Alphabet[k]?.getD (Char.ofNat 65)) = true := by
  cases h : b64Alphabet[k]? with
  | none => decide
  | some c =>
    have hmem : c ∈ b64Alphabet := List.getElem?_mem h
    have hall : b64Alphabet.all isB64Char = true := by decide
    simpa using List.all_eq_true.mp hall c hmem

theorem base64Encode_all_b64 (bytes : List Nat) :
    (base64Encode bytes).all isB64Char = true := by
  have hpad : isB64Char (Char.ofNat 61) = true := by decide
  induction bytes using base64Encode.induct with
  | case1 => rfl
  | case2 a => simp [base64Encode, b64Alphabet_getD_b64, hpad]
  | case3 a b => simp [base64Encode, b64Alphabet_getD_b64, hpad]
  | case4 a b c rest ih => simp [base64Encode, b64Alphabet_getD_b64, hpad, ih]

theorem base64Encode_ne_nil (bytes : List Nat) (h : bytes ≠ []) :
    base64Encode bytes ≠ [] := by
  match bytes with
  | [] => exact absurd rfl h
  | [a] => simp [base64Encode]
  | [a, b] => simp [base64Encode]
  | a :: b :: c :: rest => simp [base64Encode]

theorem encode_all_b64 (s : String) : (signal.encode s).data.all isB64Char = true :=
  base64Encode_all_b64 (utf8Encode s)

theorem signal_encode_ne (s t : String) (c : Char) (hct : c ∈ t.data)
    (hcb : isB64Char c = false) : signal.encode s ≠ t := by
  intro he
  have hall : (signal.encode s).data.all isB64Char = true := encode_all_b64 s
  rw [he] at hall
  have hc := List.all_eq_true.mp hall c hct
  rw [hcb] at hc
  exact Bool.false_ne_true hc

theorem encodeCodePoint_ne_nil (n : Nat) : encodeCodePoint n ≠ [] := by
  unfold encodeCodePoint
  split_ifs <;> simp

theorem utf8Encode_ne_nil (s : String) (h : s.data ≠ []) : utf8Encode s ≠ [] := by
  cases hd : s.data with
  | nil => exact absurd hd h
  | cons c l =>
    rw [utf8Encode, hd, List.flatMap_cons]
    intro hcontra
    exact encodeCodePoint_ne_nil c.toNat (List.append_eq_nil.mp hcontra).1

theorem signal_encode_ne_empty (s : String) (h : s.data ≠ []) : signal.encode s ≠ "" := by
  intro he
  have hdata : base64Encode (utf8Encode s) = [] := congrArg String.data he
  exact base64Encode_ne_nil _ (utf8Encode_ne_nil s h) hdata

theorem jsonSerialize_length (d : RTCSessionDescription) : 9 ≤ (jsonSerialize d).length := by
  rw [jsonSerialize, String.length_append, String.length_append, String.length_append,
    String.length_append]
  have h9 : ("\x7b\"type\":\"" : String).length = 9 := rfl
  omega

theorem jsonSerialize_data_ne_nil (d : RTCSessionDescription) :
    (jsonSerialize d).data ≠ [] := by
  intro h
  have hlen := jsonSerialize_length d
  have hz : (jsonSerialize d).length = 0 := by
    show (jsonSerialize d).data.length = 0
    rw [h]
    rfl
  omega

theorem encode_json_ne_press (d : RTCSessionDescription) :
    signal.encode (jsonSerialize d) ≠ "Press ctrl-c to stop" :=
  signal_encode_ne _ _ (Char.ofNat 32) (by decide) (by decide)

theorem encode_json_ne_received (d : RTCSessionDescription) :
    signal.encode (jsonSerialize d) ≠ "received done signal!" :=
  signal_encode_ne _ _ (Char.ofNat 32) (by decide) (by decide)

theorem encode_json_ne_empty (d : RTCSessionDescription) :
    signal.encode (jsonSerialize d) ≠ "" :=
  signal_encode_ne_empty _ (jsonSerialize_data_ne_nil d)

theorem doneFired_false (env : Env) : doneFired env = false := by
  rw [doneFired, List.any_eq_false]
  intro s hs
  simp [on_peer_connection_state_change]

set_option maxHeartbeats 3200000 in
/-- Claim C1: in every run the negotiation steps are ordered:
`set_remote_description` (on the embedded offer: the traces only ever
apply it to `offer`) completes before `create_answer` and before
`set_local_description` are invoked, `add_ice_candidate` only after
`set_remote_description` completes, and `local_description` is read only
after `set_local_description` completes.  (An erroring call ends the
trace, so an event following it means the call completed.) -/
theorem claim_C1 (env : Env) :
    allAfter isSetRemoteEv isCreateAnswerEv (mainFn env).1 = true
    ∧ allAfter isSetRemoteEv isSetLocalEv (mainFn env).1 = true
    ∧ allAfter isSetRemoteEv isAddIceEv (mainFn env).1 = true
    ∧ allAfter isSetLocalEv isReadLocalEv (mainFn env).1 = true
    ∧ ((mainFn env).1.filter isSetRemoteEv = []
        ∨ (mainFn env).1.filter isSetRemoteEv = [Event.setRemoteDescription offer]) := by
  obtain ⟨fh, dbg, rc, ri, npc, sr, ca, sl, ai, ld, scs, cl⟩ := env
  cases fh <;> cases dbg <;> cases rc <;> cases ri <;> cases npc <;> cases sr <;> cases ca
    <;> cases sl <;> cases ai <;> cases ld <;>
    exact ⟨rfl, rfl, rfl, rfl, by first | exact Or.inl rfl | exact Or.inr rfl⟩

/-- Claim C5: when `add_ice_candidate` on the embedded candidate returns
an error the program panics (hard unwrap) instead of propagating it as a
`Result` from main, and the local description is never read; when
`add_ice_candidate` succeeds the panic branch is unreachable and
execution continues to reading the local description. -/
theorem claim_C5 (env : Env) (a : RTCSessionDescription)
    (hfh : env.fullhelp = false)
    (h1 : env.register_default_codecs = Except.ok ())
    (h2 : env.register_default_interceptors = Except.ok ())
    (h3 : env.new_peer_connection = Except.ok ())
    (h4 : env.set_remote_description = Except.ok ())
    (h5 : env.create_answer = Except.ok a)
    (h6 : env.set_local_description = Except.ok ()) :
    (∀ e, env.add_ice_candidate = Except.error e →
      (mainFn env).2 = Outcome.panicked ∧ Event.readLocalDescription ∉ (mainFn env).1)
    ∧ (env.add_ice_candidate = Except.ok () →
      (mainFn env).2 ≠ Outcome.panicked ∧ Event.readLocalDescription ∈ (mainFn env).1) := by
  constructor
  · intro e hai
    constructor
    · simp [mainFn, hfh, h1, h2, h3, h4, h5, h6, hai]
    · cases hdbg : env.debug <;>
        simp [mainFn, hfh, h1, h2, h3, h4, h5, h6, hai, hdbg]
  · intro hai
    constructor
    · cases hcl : env.close <;>
        simp [mainFn, hfh, h1, h2, h3, h4, h5, h6, hai, hcl]
    · cases hdbg : env.debug <;> cases hld : env.local_description <;>
        simp [mainFn, hfh, h1, h2, h3, h4, h5, h6, hai, hdbg, hld]

/-- Claim C5 witness: in `env_C5` the failing candidate add panics and the
local description is never read. -/
theorem claim_C5_witness :
    (mainFn env_C5).2 = Outcome.panicked
    ∧ Event.readLocalDescription ∉ (mainFn env_C5).1 :=
  (claim_C5 env_C5 { sdp_type := RTCSdpType.answer, sdp := "a" }
    rfl rfl rfl rfl rfl rfl rfl).1 "bad candidate" rfl

/-- Claim C7 counterexample: the claim says that whenever the `--debug`
flag is present a logger is installed; in the run with both `--fullhelp`
and `--debug` the flag is present yet no logger is ever installed (the
program exits after printing the long help). -/
theorem claim_C7_counterexample :
    env_C7x.debug = true ∧ Event.installLogger ∉ (mainFn env_C7x).1 := by
  refine ⟨rfl, ?_⟩
  decide

/-- Claim C7 (amended: in runs without `--fullhelp`, which exits before
the logging setup): a process-wide logger is installed if and only if the
`--debug` flag is present; it is installed first, before any WebRTC
construction; its format is
`\x7bfile\x7d:\x7bline\x7d [\x7blevel\x7d] \x7bHH:MM:SS.uuuuuu\x7d - \x7bmessage\x7d` with local
wall-clock time and six fractional digits (the spec's format, with file
defaulting to `unknown` and line to 0 when absent), and its filter passes
trace level and above for all sources. -/
theorem claim_C7 (env : Env) (hfh : env.fullhelp = false) :
    (Event.installLogger ∈ (mainFn env).1 ↔ env.debug = true)
    ∧ (env.debug = true → (mainFn env).1.head? = some Event.installLogger)
    ∧ (∀ (file : String) (line : Nat) (level : LogLevel) (now : LocalTime) (message : String),
        loggerFormat { file := some file, line := some line, level := level, args := message }
          now = specLoggerFormat file line level now message)
    ∧ loggerFilter = (none, LogLevelFilter.TraceF) := by
  refine ⟨?_, ?_, ?_, rfl⟩
  · constructor
    · intro hmem
      by_contra hdbg
      rw [Bool.not_eq_true] at hdbg
      obtain ⟨fh, dbg, rc, ri, npc, sr, ca, sl, ai, ld, scs, cl⟩ := env
      simp only at hfh hdbg
      subst hfh hdbg
      revert hmem
      cases rc <;> cases ri <;> cases npc <;> cases sr <;> cases ca <;> cases sl <;> cases ai
        <;> cases ld <;> simp [mainFn]
    · intro hdbg
      obtain ⟨fh, dbg, rc, ri, npc, sr, ca, sl, ai, ld, scs, cl⟩ := env
      simp only at hfh hdbg
      subst hfh hdbg
      cases rc <;> cases ri <;> cases npc <;> cases sr <;> cases ca <;> cases sl <;> cases ai
        <;> cases ld <;> simp [mainFn]
  · intro hdbg
    obtain ⟨fh, dbg, rc, ri, npc, sr, ca, sl, ai, ld, scs, cl⟩ := env
    simp only at hfh hdbg
    subst hfh hdbg
    cases rc <;> cases ri <;> cases npc <;> cases sr <;> cases ca <;> cases sl <;> cases ai
      <;> cases ld <;> rfl
  · intro file line level now message
    simp [loggerFormat, specLoggerFormat, chronoHMS6f, String.append_assoc]

/-- Claim C7 witness: in the debug run `env_C7` the logger is installed,
and the installed filter is trace for all sources. -/
theorem claim_C7_witness :
    (Event.installLogger ∈ (mainFn env_C7).1 ↔ env_C7.debug = true)
    ∧ loggerFilter = (none, LogLevelFilter.TraceF) :=
  ⟨(claim_C7 env_C7 rfl).1, (claim_C7 env_C7 rfl).2.2.2⟩

/-- Claim C3: after `set_local_description` completes and the ICE
candidate is added, the program reads the local description; if present it
prints exactly one line holding the base64 encoding of its JSON
serialization, otherwise it prints `generate local_description failed!`;
in both cases it then prints `Press ctrl-c to stop` and proceeds to the
termination wait and the close, never exiting the process. -/
theorem claim_C3 (env : Env) (a : RTCSessionDescription)
    (hfh : env.fullhelp = false)
    (h1 : env.register_default_codecs = Except.ok ())
    (h2 : env.register_default_interceptors = Except.ok ())
    (h3 : env.new_peer_connection = Except.ok ())
    (h4 : env.set_remote_description = Except.ok ())
    (h5 : env.create_answer = Except.ok a)
    (h6 : env.set_local_description = Except.ok ())
    (h7 : env.add_ice_candidate = Except.ok ()) :
    (mainFn env).1 =
      (if env.debug then [Event.installLogger] else [])
      ++ [Event.registerDefaultCodecs, Event.registerDefaultInterceptors, Event.buildAPI,
          Event.newPeerConnection config, Event.installStateChangeHandler,
          Event.installDataChannelHandler, Event.setRemoteDescription offer,
          Event.createAnswer, Event.setLocalDescription a, Event.addIceCandidate candidateInit,
          Event.readLocalDescription]
      ++ (match env.local_description with
          | some d => [Event.print (signal.encode (jsonSerialize d))]
          | none => [Event.print "generate local_description failed!"])
      ++ [Event.print "Press ctrl-c to stop", Event.awaitSelect false, Event.print "",
          Event.closePC]
    ∧ (∀ d, env.local_description = some d →
        (mainFn env).1.count (Event.print (signal.encode (jsonSerialize d))) = 1)
    ∧ (env.local_description = none →
        (mainFn env).1.count (Event.print "generate local_description failed!") = 1)
    ∧ (∀ c, Event.exitProcess c ∉ (mainFn env).1) := by
  refine ⟨?_, ?_, ?_, ?_⟩
  · cases hdbg : env.debug <;> cases hld : env.local_description <;>
      simp [mainFn, hfh, h1, h2, h3, h4, h5, h6, h7, hdbg, hld, doneFired_false]
  · intro d hd
    have hne1 := encode_json_ne_press d
    have hne2 := encode_json_ne_empty d
    cases hdbg : env.debug <;>
      simp [mainFn, hfh, h1, h2, h3, h4, h5, h6, h7, hd, hdbg, doneFired_false,
        List.count_cons, hne1, hne2, Ne.symm hne1, Ne.symm hne2]
  · intro hd
    cases hdbg : env.debug <;>
      simp [mainFn, hfh, h1, h2, h3, h4, h5, h6, h7, hd, hdbg, doneFired_false,
        List.count_cons]
  · intro c
    cases hdbg : env.debug <;> cases hld : env.local_description <;>
      simp [mainFn, hfh, h1, h2, h3, h4, h5, h6, h7, hdbg, hld, doneFired_false]

/-- Claim C3 witness: in the all-successful run `env_C3` the base64 line
is printed exactly once and the process is not exited. -/
theorem claim_C3_witness :
    (mainFn env_C3).1.count
      (Event.print (signal.encode
        (jsonSerialize { sdp_type := RTCSdpType.answer, sdp := "a" }))) = 1
    ∧ Event.exitProcess 0 ∉ (mainFn env_C3).1 :=
  ⟨(claim_C3 env_C3 { sdp_type := RTCSdpType.answer, sdp := "a" }
      rfl rfl rfl rfl rfl rfl rfl rfl).2.1 _ rfl,
   (claim_C3 env_C3 { sdp_type := RTCSdpType.answer, sdp := "a" }
      rfl rfl rfl rfl rfl rfl rfl rfl).2.2.2 0⟩

/-- Claim C9: no code path sends on the termination channel (the only
send site, in the Failed branch, is commented out), so the done branch of
the final select is unreachable in every run: `received done signal!` is
never printed, the select always observes an unfired done channel, and a
run that reaches the wait leaves it only via the interrupt, awaits the
close and returns `Ok`. -/
theorem claim_C9 :
    (∀ s, (on_peer_connection_state_change s).2 = false)
    ∧ (∀ env, doneFired env = false)
    ∧ (∀ env, Event.print "received done signal!" ∉ (mainFn env).1)
    ∧ (∀ (env : Env) (a : RTCSessionDescription),
        env.fullhelp = false →
        env.register_default_codecs = Except.ok () →
        env.register_default_interceptors = Except.ok () →
        env.new_peer_connection = Except.ok () →
        env.set_remote_description = Except.ok () →
        env.create_answer = Except.ok a →
        env.set_local_description = Except.ok () →
        env.add_ice_candidate = Except.ok () →
        env.close = Except.ok () →
        (∃ t, (mainFn env).1
            = t ++ [Event.awaitSelect false, Event.print "", Event.closePC])
        ∧ (mainFn env).2 = Outcome.ok) := by
  refine ⟨fun s => rfl, doneFired_false, ?_, ?_⟩
  · intro env
    obtain ⟨fh, dbg, rc, ri, npc, sr, ca, sl, ai, ld, scs, cl⟩ := env
    have hdf := doneFired_false
      { fullhelp := fh, debug := dbg, register_default_codecs := rc,
        register_default_interceptors := ri, new_peer_connection := npc,
        set_remote_description := sr, create_answer := ca, set_local_description := sl,
        add_ice_candidate := ai, local_description := ld, stateChanges := scs, close := cl }
    cases fh <;> cases dbg <;> cases rc <;> cases ri <;> cases npc <;> cases sr <;> cases ca
      <;> cases sl <;> cases ai
    all_goals try simp [mainFn]
    all_goals cases ld
    all_goals simp [mainFn, hdf, encode_json_ne_received,
      fun d => Ne.symm (encode_json_ne_received d)]
  · intro env a hfh h1 h2 h3 h4 h5 h6 h7 h8
    constructor
    · refine ⟨(if env.debug then [Event.installLogger] else [])
        ++ [Event.registerDefaultCodecs, Event.registerDefaultInterceptors, Event.buildAPI,
            Event.newPeerConnection config, Event.installStateChangeHandler,
            Event.installDataChannelHandler, Event.setRemoteDescription offer,
            Event.createAnswer, Event.setLocalDescription a, Event.addIceCandidate candidateInit,
            Event.readLocalDescription]
        ++ (match env.local_description with
            | some d => [Event.print (signal.encode (jsonSerialize d))]
            | none => [Event.print "generate local_description failed!"])
        ++ [Event.print "Press ctrl-c to stop"], ?_⟩
      cases hdbg : env.debug <;> cases hld : env.local_description <;>
        simp [mainFn, hfh, h1, h2, h3, h4, h5, h6, h7, hdbg, hld, doneFired_false]
    · simp [mainFn, hfh, h1, h2, h3, h4, h5, h6, h7, h8]

/-- Claim C9 witness: in the successful run `env_C9`, whose state changes
include `Failed`, the done print never appears and the run returns ok. -/
theorem claim_C9_witness :
    Event.print "received done signal!" ∉ (mainFn env_C9).1
    ∧ (mainFn env_C9).2 = Outcome.ok :=
  ⟨claim_C9.2.2.1 env_C9,
   (claim_C9.2.2.2 env_C9 { sdp_type := RTCSdpType.answer, sdp := "a" }
      rfl rfl rfl rfl rfl rfl rfl rfl rfl).2⟩
